import Mathlib

/-
Shallow embedding of `src/models/experimental/resnet_float16/resnet_main.py`
(ResNet-50 ImageNet training driver).

Modelling conventions:
* Machine floats of the source are modelled by exact rationals (`ℚ`); the
  constants 0.1, 0.9, 1e-4, ... become the corresponding rationals.
* Python integer floor division `//` on non-negative quantities becomes `Nat`
  division.
* The external collaborators (network forward pass, input pipeline, TPU
  cluster resolver, wall clock, checkpoint store) are passed in as explicit
  parameters; the code of this repository that manipulates their results is
  embedded faithfully.
-/

namespace ResnetMain

/-- Dataset constant `LABEL_CLASSES = 1000` from the source. -/
def LABEL_CLASSES : ℕ := 1000

/-- Dataset constant `NUM_TRAIN_IMAGES = 1281167` from the source. -/
def NUM_TRAIN_IMAGES : ℕ := 1281167

/-- Dataset constant `NUM_EVAL_IMAGES = 50000` from the source. -/
def NUM_EVAL_IMAGES : ℕ := 50000

/-- Hyperparameter `BASE_LEARNING_RATE = 0.1` (base LR when batch size = 256). -/
def BASE_LEARNING_RATE : ℚ := 1/10

/-- Hyperparameter `MOMENTUM = 0.9`. -/
def MOMENTUM : ℚ := 9/10

/-- Hyperparameter `WEIGHT_DECAY = 1e-4`. -/
def WEIGHT_DECAY : ℚ := 1/10000

/-- The `(multiplier, epoch to start)` list
`LR_SCHEDULE = [(1.0, 5), (0.1, 30), (0.01, 60), (0.001, 80)]`. -/
def LR_SCHEDULE : List (ℚ × ℚ) := [(1, 5), (1/10, 30), (1/100, 60), (1/1000, 80)]

/-- The scaled learning rate
`scaled_lr = BASE_LEARNING_RATE * (FLAGS.train_batch_size / 256.0)`
computed at the top of `learning_rate_schedule`. -/
def scaled_lr (train_batch_size : ℚ) : ℚ :=
  BASE_LEARNING_RATE * (train_batch_size / 256)

/-- Embedding of `learning_rate_schedule(current_epoch)`: linear warmup
`scaled_lr * LR_SCHEDULE[0][0] * current_epoch / LR_SCHEDULE[0][1]`, then one
`tf.where(current_epoch < start_epoch, decay_rate, scaled_lr * mult)` per
schedule entry, applied in list order (a left fold). -/
def learning_rate_schedule (train_batch_size : ℚ) (current_epoch : ℚ) : ℚ :=
  let s := scaled_lr train_batch_size
  let decay_rate := s * LR_SCHEDULE.headI.1 * current_epoch / LR_SCHEDULE.headI.2
  LR_SCHEDULE.foldl
    (fun d p => if current_epoch < p.2 then d else s * p.1) decay_rate

/-- Unfolding the concrete four-entry schedule turns the left fold of
`learning_rate_schedule` into four nested conditionals. -/
lemma learning_rate_schedule_eq (b e : ℚ) :
    learning_rate_schedule b e =
      if e < 80 then
        if e < 60 then
          if e < 30 then
            if e < 5 then scaled_lr b * 1 * e / 5 else scaled_lr b * 1
          else scaled_lr b * (1/10)
        else scaled_lr b * (1/100)
      else scaled_lr b * (1/1000) := by
  simp only [learning_rate_schedule, LR_SCHEDULE, List.foldl, List.headI]

/-- C3: the learning-rate schedule starts at 0, reaches `scaled_lr * 1.0`
at epoch 5, is constant `scaled_lr * 0.001` from epoch 80 on, is monotone
non-decreasing on the warmup interval `[0, 5)`, and on each interval between
breakpoints equals `scaled_lr` times the multiplier of the last schedule pair
whose `start_epoch` threshold is satisfied. -/
theorem learning_rate_schedule_spec (b : ℚ) (hb : 0 ≤ b) (e : ℚ) :
    learning_rate_schedule b 0 = 0 ∧
    learning_rate_schedule b 5 = scaled_lr b * 1 ∧
    (80 ≤ e → learning_rate_schedule b e = scaled_lr b * (1/1000)) ∧
    (∀ a c : ℚ, 0 ≤ a → a ≤ c → c < 5 →
      learning_rate_schedule b a ≤ learning_rate_schedule b c) ∧
    (5 ≤ e → e < 30 → learning_rate_schedule b e = scaled_lr b * 1) ∧
    (30 ≤ e → e < 60 → learning_rate_schedule b e = scaled_lr b * (1/10)) ∧
    (60 ≤ e → e < 80 → learning_rate_schedule b e = scaled_lr b * (1/100)) := by
  have hs : 0 ≤ scaled_lr b := by
    unfold scaled_lr BASE_LEARNING_RATE
    positivity
  refine ⟨?_, ?_, ?_, ?_, ?_, ?_, ?_⟩
  · rw [learning_rate_schedule_eq]
    norm_num
  · rw [learning_rate_schedule_eq]
    norm_num
  · intro h
    rw [learning_rate_schedule_eq, if_neg (by linarith)]
  · intro a c ha hac hc
    rw [learning_rate_schedule_eq, learning_rate_schedule_eq,
      if_pos (by linarith), if_pos (by linarith), if_pos (by linarith),
      if_pos (by linarith), if_pos (by linarith), if_pos (by linarith),
      if_pos hc, if_pos (by linarith)]
    gcongr
  · intro h1 h2
    rw [learning_rate_schedule_eq, if_pos (by linarith), if_pos (by linarith),
      if_pos h2, if_neg (by linarith)]
  · intro h1 h2
    rw [learning_rate_schedule_eq, if_pos (by linarith), if_pos h2,
      if_neg (by linarith)]
  · intro h1 h2
    rw [learning_rate_schedule_eq, if_pos h2, if_neg (by linarith)]

/-- C3 witness: the schedule properties instantiated at batch size 1024 and
epoch 90. -/
theorem learning_rate_schedule_spec_witness :
    learning_rate_schedule 1024 0 = 0 ∧
    learning_rate_schedule 1024 5 = scaled_lr 1024 * 1 ∧
    learning_rate_schedule 1024 90 = scaled_lr 1024 * (1/1000) ∧
    learning_rate_schedule 1024 1 ≤ learning_rate_schedule 1024 2 := by
  have h := learning_rate_schedule_spec 1024 (by norm_num) 90
  exact ⟨h.1, h.2.1, h.2.2.1 (by norm_num),
    h.2.2.2.1 1 2 (by norm_num) (by norm_num) (by norm_num)⟩

/-- TensorFlow dtypes relevant to `inner_custom_getter`. -/
inductive DType
  | bfloat16
  | float32
  | float16
  | float64
deriving DecidableEq

/-- A TensorFlow value: its dtype, and whether it is still a `tf.Variable`
reference (assignable in place) or a derived tensor such as the result of
`tf.cast` (the source comments on exactly this distinction for batch norm). -/
structure TfValue where
  dtype : DType
  assignable : Bool
deriving DecidableEq

/-- Embedding of `tf.cast(v, d)`: the result has dtype `d` and is no longer a
variable reference. -/
def tf_cast (_v : TfValue) (d : DType) : TfValue := ⟨d, false⟩

/-- The wrapped base `getter` argument of `inner_custom_getter`: materializes
a fresh variable of the dtype passed through `kwargs`. -/
def base_getter (d : DType) : TfValue := ⟨d, true⟩

/-- Result of one call of the custom getter: the dtype the underlying
variable was materialized with, and the value returned to the caller. -/
structure GetterCall where
  storage_dtype : DType
  returned : TfValue
deriving DecidableEq

/-- Embedding of `inner_custom_getter(getter, *args, **kwargs)`: if the
requested dtype is bfloat16, the dtype in `kwargs` is rewritten to float32 before
calling the wrapped getter, and the returned variable is then passed through
`tf.cast(var, tf.float32)` (the literal cast target in the source); any other
requested dtype is passed through and the raw variable is returned. -/
def inner_custom_getter (requested_dtype : DType) : GetterCall :=
  let cast_to_bfloat16 := requested_dtype == DType.bfloat16
  let kw_dtype :=
    if requested_dtype == DType.bfloat16 then DType.float32 else requested_dtype
  let var := base_getter kw_dtype
  let var := if cast_to_bfloat16 then tf_cast var DType.float32 else var
  ⟨kw_dtype, var⟩

/-- C4: [code bug] for a bfloat16 request the underlying variable is indeed
materialized at float32, but the value returned for the forward pass is cast
to float32 — the source line is `var = tf.cast(var, tf.float32)` — and not to
the requested reduced kind bfloat16, contradicting the claim and the getter
docstring ("then casted to the requested dtype"). Other dtypes pass through
unchanged with the raw variable returned. -/
theorem inner_custom_getter_bug :
    (inner_custom_getter DType.bfloat16).storage_dtype = DType.float32 ∧
    (inner_custom_getter DType.bfloat16).returned.dtype = DType.float32 ∧
    ¬(inner_custom_getter DType.bfloat16).returned.dtype = DType.bfloat16 ∧
    (inner_custom_getter DType.float32).returned = base_getter DType.float32 ∧
    (inner_custom_getter DType.float16).returned = base_getter DType.float16 ∧
    (inner_custom_getter DType.float32).storage_dtype = DType.float32 ∧
    (inner_custom_getter DType.float16).storage_dtype = DType.float16 := by
  decide

/-- A trainable variable: its TensorFlow name and its (flattened) value. -/
structure TrainableVariable where
  name : String
  value : List ℚ

/-- Embedding of `tf.nn.l2_loss(v)`: half the sum of squared entries. -/
def l2_loss (v : List ℚ) : ℚ := (v.map fun x => x * x).sum / 2

/-- The Python membership test `batch_normalization in v.name`
(contiguous-substring test on the variable name). -/
def nameHasBatchNorm (s : String) : Bool :=
  decide (("batch_normalization").toList <:+: s.toList)

/-- Embedding of the regularization term of
`loss = cross_entropy + WEIGHT_DECAY * tf.add_n([tf.nn.l2_loss(v) for v in
tf.trainable_variables() if batch_normalization not in v.name])`. -/
def weight_decay_penalty (tvars : List TrainableVariable) : ℚ :=
  WEIGHT_DECAY *
    ((tvars.filter fun v => !nameHasBatchNorm v.name).map
      fun v => l2_loss v.value).sum

lemma weight_decay_penalty_append (a b : List TrainableVariable) :
    weight_decay_penalty (a ++ b) =
      weight_decay_penalty a + weight_decay_penalty b := by
  simp [weight_decay_penalty, List.filter_append, mul_add]

lemma weight_decay_penalty_cons (v : TrainableVariable)
    (t : List TrainableVariable) :
    weight_decay_penalty (v :: t) =
      (if nameHasBatchNorm v.name then 0 else WEIGHT_DECAY * l2_loss v.value) +
        weight_decay_penalty t := by
  by_cases h : nameHasBatchNorm v.name <;>
    simp [weight_decay_penalty, List.filter_cons, h, mul_add]

/-- C5: replacing the value of a variable whose name marks it as belonging to
a batch-normalization layer leaves the weight-decay penalty unchanged, while
replacing the value of an ordinary variable by one with a different `l2_loss`
changes the penalty. -/
theorem weight_decay_exclusion (pre post : List TrainableVariable)
    (v v' : TrainableVariable) (hname : v'.name = v.name) :
    (nameHasBatchNorm v.name = true →
      weight_decay_penalty (pre ++ v' :: post) =
        weight_decay_penalty (pre ++ v :: post)) ∧
    (nameHasBatchNorm v.name = false →
      l2_loss v'.value ≠ l2_loss v.value →
      weight_decay_penalty (pre ++ v' :: post) ≠
        weight_decay_penalty (pre ++ v :: post)) := by
  constructor
  · intro h
    simp [weight_decay_penalty_append, weight_decay_penalty_cons, hname, h]
  · intro h hne heq
    rw [weight_decay_penalty_append, weight_decay_penalty_append,
      weight_decay_penalty_cons, weight_decay_penalty_cons, hname, h] at heq
    simp only [Bool.false_eq_true, if_false] at heq
    have hmul : WEIGHT_DECAY * l2_loss v'.value = WEIGHT_DECAY * l2_loss v.value := by
      linarith
    exact hne (mul_left_cancel₀ (by norm_num [WEIGHT_DECAY]) hmul)

/-- C5 witness: in a two-variable model with one batch-normalization
parameter and one convolution kernel, changing only the batch-normalization
value keeps the penalty, and changing the kernel value changes it. -/
theorem weight_decay_exclusion_witness :
    weight_decay_penalty
        [⟨"cg/batch_normalization/gamma", [2]⟩, ⟨"cg/conv2d/kernel", [3]⟩] =
      weight_decay_penalty
        [⟨"cg/batch_normalization/gamma", [1]⟩, ⟨"cg/conv2d/kernel", [3]⟩] ∧
    weight_decay_penalty
        [⟨"cg/batch_normalization/gamma", [1]⟩, ⟨"cg/conv2d/kernel", [4]⟩] ≠
      weight_decay_penalty
        [⟨"cg/batch_normalization/gamma", [1]⟩, ⟨"cg/conv2d/kernel", [3]⟩] := by
  constructor
  · exact (weight_decay_exclusion [] [⟨"cg/conv2d/kernel", [3]⟩]
      ⟨"cg/batch_normalization/gamma", [1]⟩
      ⟨"cg/batch_normalization/gamma", [2]⟩ rfl).1 (by decide)
  · exact (weight_decay_exclusion [⟨"cg/batch_normalization/gamma", [1]⟩] []
      ⟨"cg/conv2d/kernel", [3]⟩ ⟨"cg/conv2d/kernel", [4]⟩ rfl).2
      (by decide) (by norm_num [l2_loss])

/-- The string value of `tf.estimator.ModeKeys.TRAIN`. -/
def MODE_TRAIN : String := "train"

/-- The string value of `tf.estimator.ModeKeys.EVAL`. -/
def MODE_EVAL : String := "eval"

/-- The string value of `tf.estimator.ModeKeys.PREDICT`. -/
def MODE_PREDICT : String := "infer"

/-- Shape of the `tf.estimator.EstimatorSpec` value built by
`resnet_model_fn`: which mode it carries, whether predictions are present,
the loss (if any), and whether a train op and eval metrics are attached. -/
structure EstimatorSpec where
  mode : String
  has_predictions : Bool
  loss : Option ℚ
  has_train_op : Bool
  has_metrics : Bool
deriving DecidableEq

/-- Embedding of the mode dispatch and loss assembly of `resnet_model_fn`:
predictions are always built; `mode == PREDICT` returns early with
predictions only; otherwise the loss is
`cross_entropy + weight_decay_penalty`, a train op is attached exactly when
`mode == TRAIN`, and accuracy metrics are attached. The external forward
pass is abstracted into the `cross_entropy` argument and the variable set
into `tvars`. No branch of the source raises for an unrecognized mode. -/
def resnet_model_fn (mode : String) (cross_entropy : ℚ)
    (tvars : List TrainableVariable) : EstimatorSpec :=
  if mode == MODE_PREDICT then
    { mode := mode, has_predictions := true, loss := none,
      has_train_op := false, has_metrics := false }
  else
    let loss := cross_entropy + weight_decay_penalty tvars
    { mode := mode, has_predictions := true, loss := some loss,
      has_train_op := mode == MODE_TRAIN, has_metrics := true }

/-- C6 counterexample: a mode value outside {TRAIN, EVAL, PREDICT} is not
rejected; `resnet_model_fn` completes and returns an evaluation-shaped
result (loss and metrics, no train op) for the malformed mode "garbage". -/
theorem resnet_model_fn_malformed_mode_counterexample :
    resnet_model_fn ("garbage") 1 [] =
      { mode := "garbage", has_predictions := true, loss := some 1,
        has_train_op := false, has_metrics := true } := by
  simp [resnet_model_fn, MODE_PREDICT, MODE_TRAIN, weight_decay_penalty]

/-- C6 amended: every mode other than PREDICT and TRAIN — including every
malformed value — silently takes the evaluation path: the computation
completes and returns a result carrying the loss and metrics and no train
op, rather than failing fatally. -/
theorem resnet_model_fn_malformed_mode (mode : String) (ce : ℚ)
    (tvars : List TrainableVariable)
    (h1 : mode ≠ MODE_PREDICT) (h2 : mode ≠ MODE_TRAIN) :
    resnet_model_fn mode ce tvars =
      { mode := mode, has_predictions := true,
        loss := some (ce + weight_decay_penalty tvars),
        has_train_op := false, has_metrics := true } := by
  simp [resnet_model_fn, h1, h2]

/-- C6 amended witness: the amended statement at the malformed mode "bogus". -/
theorem resnet_model_fn_malformed_mode_witness :
    resnet_model_fn ("bogus") 2 [] =
      { mode := "bogus", has_predictions := true, loss := some 2,
        has_train_op := false, has_metrics := true } := by
  exact (resnet_model_fn_malformed_mode ("bogus") 2 [] (by decide)
    (by decide)).trans (by simp [weight_decay_penalty])

/-- The configuration flags consumed by `main`, fixed at process start. -/
structure Config where
  train_batch_size : ℕ
  eval_batch_size : ℕ
  model_dir : String
  use_tpu : Bool
  master : Option String
  tpu_name : Option String

/-- Embedding of `batches_per_epoch = NUM_TRAIN_IMAGES // FLAGS.train_batch_size`
computed in `main` (steps per epoch). -/
def batches_per_epoch (c : Config) : ℕ :=
  NUM_TRAIN_IMAGES / c.train_batch_size

/-- Embedding of `current_epoch = current_step // FLAGS.train_batch_size`
from `main` — note the divisor is the batch size itself, not
`batches_per_epoch`. -/
def derived_epoch (c : Config) (current_step : ℕ) : ℕ :=
  current_step / c.train_batch_size

/-- Embedding of `next_checkpoint = (current_epoch + 1) * batches_per_epoch`
from the loop body of `main`. -/
def next_checkpoint (c : Config) (current_epoch : ℕ) : ℕ :=
  (current_epoch + 1) * batches_per_epoch c

/-- The `steps=NUM_EVAL_IMAGES // FLAGS.eval_batch_size` argument `main`
passes to `Estimator.evaluate` each iteration. -/
def eval_steps (c : Config) : ℕ := NUM_EVAL_IMAGES / c.eval_batch_size

/-- The evaluation images left out every epoch by the floor division. -/
def excluded_eval_images (c : Config) : ℕ :=
  NUM_EVAL_IMAGES - eval_steps c * c.eval_batch_size

/-- Python two-decimal string formatting (the format spec `.2f`) for the
non-negative values at hand: round to the nearest hundredth and print with
two digits after the point. (Python rounds the underlying binary float
half-to-even; no tie arises for the values the claims exercise, so rounding
half up agrees.) -/
def format_two_decimals (q : ℚ) : String :=
  let n : ℤ := round (q * 100)
  let whole : ℤ := n / 100
  let frac : ℕ := (n % 100).toNat
  toString whole ++ "." ++ (if frac < 10 then "0" else "") ++ toString frac

/-- One entry of `results`, as `csv.writer` stringifies it: the epoch, the
hours `elapsed_time / 3600.0`, and the accuracy formatted twice with two
decimals after scaling by 100. The spec constrains the epoch and the two
accuracy fields; the hours field is rendered as the exact rational. -/
def epoch_row (current_epoch : ℕ) (elapsed_time : ℕ) (accuracy : ℚ) :
    List String :=
  [toString current_epoch, toString ((elapsed_time : ℚ) / 3600),
   format_two_decimals (accuracy * 100), format_two_decimals (accuracy * 100)]

/-- Observable trace of the `while current_epoch < 100` loop of `main`:
the persisted global step and epoch counter at exit, the `max_steps` target
passed to `train` in each iteration, the batch count passed to `evaluate`
in each iteration, and the accumulated `results` rows. -/
structure LoopTrace where
  final_step : ℕ
  final_epoch : ℕ
  train_targets : List ℕ
  eval_requests : List ℕ
  results : List (List String)
deriving DecidableEq

/-- Embedding of the epoch loop of `main`, structurally recursive on a fuel
bound. An iteration with `current_epoch < 100` trains up to
`next_checkpoint` (`Estimator.train(max_steps=...)` leaves the persisted
global step at the target, or unchanged when it is already past it),
increments the epoch, evaluates over `eval_steps` batches with accuracy
supplied by the external `eval_accuracy`, and appends a report row.
`epoch_loop_fuel_irrel` below shows that any fuel of at least
`100 - current_epoch` (the driver passes 100) realizes the exact while-loop
semantics: the guard, not the fuel, ends the loop. -/
def epoch_loop (c : Config) (eval_accuracy : ℕ → ℚ) (elapsed : ℕ → ℕ) :
    ℕ → ℕ → ℕ → LoopTrace
  | 0, current_epoch, step => ⟨step, current_epoch, [], [], []⟩
  | fuel + 1, current_epoch, step =>
    if current_epoch < 100 then
      let ncp := next_checkpoint c current_epoch
      let step1 := max step ncp
      let ce1 := current_epoch + 1
      let row := epoch_row ce1 (elapsed ce1) (eval_accuracy ce1)
      let rest := epoch_loop c eval_accuracy elapsed fuel ce1 step1
      ⟨rest.final_step, rest.final_epoch, ncp :: rest.train_targets,
        eval_steps c :: rest.eval_requests, row :: rest.results⟩
    else ⟨step, current_epoch, [], [], []⟩

/-- The header row written by `writer.writerow`: epoch, hours, top1Accuracy,
top5Accuracy. -/
def report_header : List String :=
  ["epoch", "hours", "top1Accuracy", "top5Accuracy"]

/-- The report file path: `FLAGS.model_dir` with the fixed suffix
/epoch_results.tsv appended. -/
def report_path (model_dir : String) : String :=
  model_dir ++ "/epoch_results.tsv"

/-- The full content written to the report file: the header row followed by
the accumulated result rows. -/
def write_report (results : List (List String)) : List (List String) :=
  report_header :: results

/-- Writing with mode `wb` truncates: in a filesystem modelled as a map
from path to rows, the new content at `path` replaces — and is independent
of — whatever was there. -/
def overwrite_file (fs : String → List (List String)) (path : String)
    (content : List (List String)) : String → List (List String) :=
  fun p => if p = path then content else fs p

/-- Outcome of a driver run: the loop trace and the filesystem after the
final report write. -/
structure DriverOutcome where
  trace : LoopTrace
  fs : String → List (List String)

/-- Embedding of the body of `main` after estimator construction: read the
persisted global step, derive `current_epoch` from it, run the epoch loop,
then write the report file once with overwrite semantics. -/
def driver (c : Config) (eval_accuracy : ℕ → ℚ) (elapsed : ℕ → ℕ)
    (current_step : ℕ) (fs : String → List (List String)) : DriverOutcome :=
  let current_epoch := derived_epoch c current_step
  let trace := epoch_loop c eval_accuracy elapsed 100 current_epoch current_step
  ⟨trace, overwrite_file fs (report_path c.model_dir) (write_report trace.results)⟩

/-- Embedding of the TPU endpoint resolution at the top of `main`: with
`use_tpu` set, missing both `--master` and `--tpu_name` raises
`RuntimeError`; otherwise `--master` wins when present, else the external
cluster resolver is consulted; without `use_tpu` the URL is unused. -/
def resolve_tpu_url (c : Config) (resolver : String → String) :
    Except String (Option String) :=
  if c.use_tpu then
    if c.master = none ∧ c.tpu_name = none then
      Except.error ("You must specify either --master or --tpu_name.")
    else
      match c.master with
      | some m => Except.ok (some m)
      | none => Except.ok (some (resolver (c.tpu_name.getD "")))
  else
    Except.ok none

/-- Embedding of `main`: the endpoint resolution runs first, and a
resolution error aborts the program before the estimator, the input
pipelines, the epoch loop or the report write exist; otherwise the driver
runs. -/
def main (c : Config) (resolver : String → String) (eval_accuracy : ℕ → ℚ)
    (elapsed : ℕ → ℕ) (current_step : ℕ)
    (fs : String → List (List String)) : Except String DriverOutcome :=
  match resolve_tpu_url c resolver with
  | Except.error e => Except.error e
  | Except.ok _ => Except.ok (driver c eval_accuracy elapsed current_step fs)

/-- The default flag values of the source: batch sizes 1024, TPU mode with a
master endpoint supplied. -/
def defaultFlags : Config :=
  ⟨1024, 1024, "gs://bucket/model", true, some ("grpc://10.0.0.2:8470"), none⟩

lemma epoch_loop_exit (c : Config) (ea : ℕ → ℚ) (el : ℕ → ℕ)
    (fuel ce step : ℕ) (h : 100 ≤ ce) :
    epoch_loop c ea el fuel ce step = ⟨step, ce, [], [], []⟩ := by
  cases fuel with
  | zero => rfl
  | succ n => simp [epoch_loop, Nat.not_lt.mpr h]

lemma epoch_loop_fuel_irrel (c : Config) (ea : ℕ → ℚ) (el : ℕ → ℕ) :
    ∀ f1 f2 ce step, 100 - ce ≤ f1 → 100 - ce ≤ f2 →
      epoch_loop c ea el f1 ce step = epoch_loop c ea el f2 ce step := by
  intro f1
  induction f1 with
  | zero =>
    intro f2 ce step h1 h2
    have h : 100 ≤ ce := by omega
    rw [epoch_loop_exit c ea el 0 ce step h, epoch_loop_exit c ea el f2 ce step h]
  | succ n ih =>
    intro f2 ce step h1 h2
    by_cases hc : ce < 100
    · cases f2 with
      | zero => omega
      | succ m =>
        simp only [epoch_loop, if_pos hc]
        rw [ih m (ce + 1) (max step (next_checkpoint c ce)) (by omega) (by omega)]
    · have h : 100 ≤ ce := by omega
      rw [epoch_loop_exit c ea el (n + 1) ce step h,
        epoch_loop_exit c ea el f2 ce step h]

lemma epoch_loop_results (c : Config) (ea : ℕ → ℚ) (el : ℕ → ℕ) :
    ∀ fuel ce step, 100 - ce ≤ fuel →
      (epoch_loop c ea el fuel ce step).results =
        (List.range' (ce + 1) (100 - ce)).map
          (fun e => epoch_row e (el e) (ea e)) := by
  intro fuel
  induction fuel with
  | zero =>
    intro ce step h
    have h100 : 100 ≤ ce := by omega
    rw [epoch_loop_exit c ea el 0 ce step h100, Nat.sub_eq_zero_of_le h100]
    rfl
  | succ n ih =>
    intro ce step h
    by_cases hc : ce < 100
    · have hrange : 100 - ce = (100 - (ce + 1)) + 1 := by omega
      simp only [epoch_loop, if_pos hc]
      rw [ih (ce + 1) (max step (next_checkpoint c ce)) (by omega),
        hrange, List.range'_succ, List.map_cons]
    · have h100 : 100 ≤ ce := by omega
      rw [epoch_loop_exit c ea el (n + 1) ce step h100,
        Nat.sub_eq_zero_of_le h100]
      rfl

lemma epoch_loop_eval_requests (c : Config) (ea : ℕ → ℚ) (el : ℕ → ℕ) :
    ∀ fuel ce step, 100 - ce ≤ fuel →
      (epoch_loop c ea el fuel ce step).eval_requests =
        List.replicate (100 - ce) (eval_steps c) := by
  intro fuel
  induction fuel with
  | zero =>
    intro ce step h
    have h100 : 100 ≤ ce := by omega
    rw [epoch_loop_exit c ea el 0 ce step h100, Nat.sub_eq_zero_of_le h100]
    rfl
  | succ n ih =>
    intro ce step h
    by_cases hc : ce < 100
    · have hrange : 100 - ce = (100 - (ce + 1)) + 1 := by omega
      simp only [epoch_loop, if_pos hc]
      rw [ih (ce + 1) (max step (next_checkpoint c ce)) (by omega),
        hrange, List.replicate_succ]
    · have h100 : 100 ≤ ce := by omega
      rw [epoch_loop_exit c ea el (n + 1) ce step h100,
        Nat.sub_eq_zero_of_le h100]
      rfl

lemma epoch_loop_train_targets (c : Config) (ea : ℕ → ℚ) (el : ℕ → ℕ) :
    ∀ fuel ce step, 100 - ce ≤ fuel →
      (epoch_loop c ea el fuel ce step).train_targets =
        (List.range' ce (100 - ce)).map (next_checkpoint c) := by
  intro fuel
  induction fuel with
  | zero =>
    intro ce step h
    have h100 : 100 ≤ ce := by omega
    rw [epoch_loop_exit c ea el 0 ce step h100, Nat.sub_eq_zero_of_le h100]
    rfl
  | succ n ih =>
    intro ce step h
    by_cases hc : ce < 100
    · have hrange : 100 - ce = (100 - (ce + 1)) + 1 := by omega
      simp only [epoch_loop, if_pos hc]
      rw [ih (ce + 1) (max step (next_checkpoint c ce)) (by omega),
        hrange, List.range'_succ, List.map_cons]
    · have h100 : 100 ≤ ce := by omega
      rw [epoch_loop_exit c ea el (n + 1) ce step h100,
        Nat.sub_eq_zero_of_le h100]
      rfl

/-- C1: [code bug] with the default flags (`train_batch_size = 1024`, so
`batches_per_epoch = 1281167 // 1024 = 1251`), an uninterrupted run from
step 0 that stops after the training phase of epoch 5 has persisted global
step `5 * 1251 = 6255` (the fifth `max_steps` target of the loop); a restarted
driver derives `current_epoch = 6255 // 1024 = 6` — because `main` divides
the persisted step by the batch size instead of by `batches_per_epoch` —
and therefore targets `(6 + 1) * 1251 = 8757` for the next epoch, while the
uninterrupted run targets `(5 + 1) * 1251 = 7506`. -/
theorem resume_round_trip_bug :
    batches_per_epoch defaultFlags = 1251 ∧
    (epoch_loop defaultFlags (fun _ => 0) (fun _ => 0) 5 0 0).final_step = 6255 ∧
    derived_epoch defaultFlags 6255 = 6 ∧
    next_checkpoint defaultFlags (derived_epoch defaultFlags 6255) = 8757 ∧
    next_checkpoint defaultFlags 5 = 7506 := by
  decide

/-- C2: [code bug] `main` derives the epoch as
`current_step // train_batch_size` rather than
`current_step // steps_per_epoch`: at persisted step 2048 with the default
batch size 1024 the code derives epoch 2, while
`2048 // (1281167 // 1024) = 2048 // 1251 = 1`. Recomputing from the same
step is idempotent, as the claim states. -/
theorem derived_epoch_bug :
    derived_epoch defaultFlags 2048 = 2 ∧
    2048 / batches_per_epoch defaultFlags = 1 ∧
    derived_epoch defaultFlags 2048 ≠ 2048 / batches_per_epoch defaultFlags ∧
    derived_epoch defaultFlags 2048 = derived_epoch defaultFlags 2048 := by
  decide

lemma format_two_decimals_7123 : format_two_decimals (7123/100) = "71.23" := by
  have h : round ((7123/100 : ℚ) * 100) = 7123 := by
    norm_num [round_eq]
  simp only [format_two_decimals, h]
  rfl

lemma epoch_row_7123 (e t : ℕ) :
    epoch_row e t (7123/10000) =
      [toString e, toString ((t : ℚ) / 3600), "71.23", "71.23"] := by
  have h : (7123/10000 : ℚ) * 100 = 7123/100 := by norm_num
  rw [epoch_row, h, format_two_decimals_7123]

/-- C7: at loop exit the driver writes, once with overwrite semantics, the
file `{model_dir}/epoch_results.tsv` whose first row is the header
`epoch, hours, top1Accuracy, top5Accuracy`, followed by exactly one row per
completed epoch; the written content does not depend on the previous content
of the file; and an evaluation accuracy of 0.7123 is rendered as "71.23" in
both accuracy fields of its row. -/
theorem report_file_spec (c : Config) (ea : ℕ → ℚ) (el : ℕ → ℕ)
    (current_step : ℕ) (fs : String → List (List String)) :
    (driver c ea el current_step fs).fs (report_path c.model_dir) =
      report_header :: (driver c ea el current_step fs).trace.results ∧
    report_path c.model_dir = c.model_dir ++ "/epoch_results.tsv" ∧
    report_header = ["epoch", "hours", "top1Accuracy", "top5Accuracy"] ∧
    (∀ fs2, (driver c ea el current_step fs2).fs (report_path c.model_dir) =
      (driver c ea el current_step fs).fs (report_path c.model_dir)) ∧
    (driver c ea el current_step fs).trace.results =
      (List.range' (derived_epoch c current_step + 1)
        (100 - derived_epoch c current_step)).map
        (fun e => epoch_row e (el e) (ea e)) ∧
    (driver c ea el current_step fs).trace.results.length =
      100 - derived_epoch c current_step ∧
    (∀ e t, epoch_row e t (7123/10000) =
      [toString e, toString ((t : ℚ) / 3600), "71.23", "71.23"]) := by
  have hres := epoch_loop_results c ea el 100 (derived_epoch c current_step)
    current_step (by omega)
  refine ⟨?_, rfl, rfl, ?_, ?_, ?_, ?_⟩
  · simp [driver, overwrite_file, write_report]
  · intro fs2
    simp [driver, overwrite_file]
  · exact hres
  · rw [show (driver c ea el current_step fs).trace.results =
      (epoch_loop c ea el 100 (derived_epoch c current_step)
        current_step).results from rfl, hres]
    simp
  · intro e t
    exact epoch_row_7123 e t

/-- C8 counterexample: with the default eval batch size of 1024 the
evaluation loop runs `50000 // 1024 = 48` batches, but the excluded
remainder is `50000 - 48 * 1024 = 848` images, not the 512 the claim
states. -/
theorem eval_truncation_counterexample :
    eval_steps defaultFlags = 48 ∧
    excluded_eval_images defaultFlags = 848 ∧
    excluded_eval_images defaultFlags ≠ 512 := by
  decide

/-- C8 amended: every loop iteration requests exactly
`NUM_EVAL_IMAGES // eval_batch_size` evaluation batches — 48 when the eval
batch size is 1024, excluding the remaining 848 (not 512) of the 50000
images — and the count is the same in every epoch for a fixed eval batch
size. -/
theorem eval_truncation (c : Config) (ea : ℕ → ℚ) (el : ℕ → ℕ)
    (current_step : ℕ) (fs : String → List (List String))
    (h : c.eval_batch_size = 1024) :
    eval_steps c = 48 ∧
    excluded_eval_images c = 848 ∧
    (driver c ea el current_step fs).trace.eval_requests =
      List.replicate (100 - derived_epoch c current_step) (eval_steps c) := by
  have h48 : eval_steps c = 48 := by
    rw [eval_steps, h]
    decide
  refine ⟨h48, ?_, ?_⟩
  · rw [excluded_eval_images, h48, h]
    decide
  · exact epoch_loop_eval_requests c ea el 100 (derived_epoch c current_step)
      current_step (by omega)

/-- C8 witness: the amended statement at the default configuration started
from step 0. -/
theorem eval_truncation_witness :
    eval_steps defaultFlags = 48 ∧
    excluded_eval_images defaultFlags = 848 ∧
    (driver defaultFlags (fun _ => 0) (fun _ => 0) 0
        (fun _ => [])).trace.eval_requests =
      List.replicate 100 (eval_steps defaultFlags) := by
  have h := eval_truncation defaultFlags (fun _ => 0) (fun _ => 0) 0
    (fun _ => []) rfl
  simpa using h

/-- C9: with `use_tpu` set and neither `--master` nor `--tpu_name`
supplied, `main` fails immediately with the startup `RuntimeError`, before
any training, evaluation or report write, and without retrying. -/
theorem missing_endpoint_fatal (c : Config) (resolver : String → String)
    (ea : ℕ → ℚ) (el : ℕ → ℕ) (current_step : ℕ)
    (fs : String → List (List String))
    (h1 : c.use_tpu = true) (h2 : c.master = none) (h3 : c.tpu_name = none) :
    main c resolver ea el current_step fs =
      Except.error ("You must specify either --master or --tpu_name.") := by
  simp [main, resolve_tpu_url, h1, h2, h3]

/-- C9 witness: a TPU-mode configuration with both endpoint flags missing. -/
theorem missing_endpoint_fatal_witness :
    main ⟨1024, 1024, "m", true, none, none⟩ id (fun _ => 0) (fun _ => 0) 0
        (fun _ => []) =
      Except.error ("You must specify either --master or --tpu_name.") :=
  missing_endpoint_fatal ⟨1024, 1024, "m", true, none, none⟩ id (fun _ => 0)
    (fun _ => 0) 0 (fun _ => []) rfl rfl rfl

/-- C10: if the persisted step already derives an epoch of at least 100,
the loop body runs zero times — no training targets, no evaluation
requests, no result rows — and the driver still overwrites
`{model_dir}/epoch_results.tsv` with a file holding only the header row,
destroying whatever rows an earlier run had stored there. -/
theorem restart_after_completion (c : Config) (ea : ℕ → ℚ) (el : ℕ → ℕ)
    (current_step : ℕ) (fs : String → List (List String))
    (h : 100 ≤ derived_epoch c current_step) :
    (driver c ea el current_step fs).trace.train_targets = [] ∧
    (driver c ea el current_step fs).trace.eval_requests = [] ∧
    (driver c ea el current_step fs).trace.results = [] ∧
    (driver c ea el current_step fs).fs (report_path c.model_dir) =
      [report_header] := by
  have hx := epoch_loop_exit c ea el 100 (derived_epoch c current_step)
    current_step h
  refine ⟨?_, ?_, ?_, ?_⟩ <;>
    simp [driver, hx, overwrite_file, write_report]

/-- C10 witness: restarting the default configuration at persisted step
102400 (derived epoch 100) over a filesystem holding an earlier report
leaves only the header row at the report path. -/
theorem restart_after_completion_witness :
    (driver defaultFlags (fun _ => 0) (fun _ => 0) 102400
        (fun _ => [["1", "3.00", "70.00", "70.00"]])).fs
      (report_path (defaultFlags.model_dir)) = [report_header] :=
  (restart_after_completion defaultFlags (fun _ => 0) (fun _ => 0) 102400
    (fun _ => [["1", "3.00", "70.00", "70.00"]]) (by decide)).2.2.2

end ResnetMain
